import Mathlib

/-!
Shallow embedding of the contract-generator action layer
(`src/actions/index.ts` plus the table declarations).

Modelling conventions:
- The backing store is three lists of rows (`Store`); `db.select ... where eq`
  with `limit(1)` is `List.find?`, a filtered scan is `List.filter`, an insert
  appends, an `update ... where` maps the merge over every matching row, and a
  `delete ... where ... returning` removes the matching rows and returns the
  first one.
- The authenticated context (`context.locals.user`) is an `Option String`
  holding the user id; `requireUser` is the `none` branch of each handler.
- Timestamps (`new Date()`) are a `Nat` parameter `now`; `crypto.randomUUID()`
  and the store-generated clause id are an explicit `genId` parameter.
- JavaScript truthiness on strings is explicit: a `String` is truthy iff it is
  not `""`; `x ?? d` on an optional is `Option.getD`; the sparse-merge loop
  over `Object.entries` becomes a per-field `match` (present fields overwrite,
  absent fields keep the prior value).
- `ActionError` keeps the codes thrown by the source (`UNAUTHORIZED`,
  `NOT_FOUND`) plus `badRequest` for the input-schema (zod) rejection that the
  action framework performs before a handler runs.
Every mutating operation returns the final store alongside the result, so
"throws before writing" is visible as the store coming back unchanged.
-/

namespace ContractService

/-- Error codes surfaced by the action layer. -/
inductive ActionError where
  | unauthorized
  | notFound
  | badRequest
deriving DecidableEq, Repr

/-- Row of the ContractTemplates table. -/
structure Template where
  id : String
  userId : Option String
  name : String
  description : Option String
  category : Option String
  baseLanguage : Option String
  body : String
  isSystem : Bool
  createdAt : Nat
  updatedAt : Nat
deriving DecidableEq, Repr

/-- Row of the Contracts table. -/
structure Contract where
  id : String
  userId : String
  templateId : Option String
  title : String
  partyAName : Option String
  partyBName : Option String
  effectiveDate : Option Nat
  endDate : Option Nat
  governingLaw : Option String
  status : Option String
  finalText : String
  notes : Option String
  createdAt : Nat
  updatedAt : Nat
deriving DecidableEq, Repr

/-- Row of the ContractClauses table. -/
structure Clause where
  id : String
  contractId : String
  orderIndex : Int
  heading : Option String
  body : String
  clauseKey : Option String
  createdAt : Nat
deriving DecidableEq, Repr

/-- The three tables of the backing store. -/
structure Store where
  templates : List Template
  contracts : List Contract
  clauses : List Clause
deriving DecidableEq, Repr

/-- Parsed input of createTemplate (after the zod schema). -/
structure CreateTemplateInput where
  id : Option String
  name : String
  description : Option String
  category : Option String
  baseLanguage : Option String
  body : String
  isSystem : Option Bool
deriving DecidableEq, Repr

/-- Parsed input of updateTemplate. -/
structure UpdateTemplateInput where
  id : String
  name : Option String
  description : Option String
  category : Option String
  baseLanguage : Option String
  body : Option String
  isSystem : Option Bool
deriving DecidableEq, Repr

/-- Parsed input of createContract. -/
structure CreateContractInput where
  id : Option String
  templateId : Option String
  title : String
  partyAName : Option String
  partyBName : Option String
  effectiveDate : Option Nat
  endDate : Option Nat
  governingLaw : Option String
  status : Option String
  finalText : String
  notes : Option String
deriving DecidableEq, Repr

/-- Parsed input of updateContract. -/
structure UpdateContractInput where
  id : String
  templateId : Option String
  title : Option String
  partyAName : Option String
  partyBName : Option String
  effectiveDate : Option Nat
  endDate : Option Nat
  governingLaw : Option String
  status : Option String
  finalText : Option String
  notes : Option String
deriving DecidableEq, Repr

/-- Parsed input of saveClause. -/
structure SaveClauseInput where
  id : Option String
  contractId : String
  orderIndex : Int
  heading : Option String
  body : String
  clauseKey : Option String
deriving DecidableEq, Repr

/-- JS truthiness of `existing.userId && existing.userId !== user.id`:
the ownership guard throws iff the owner is a non-empty string different
from the caller (null and "" are falsy). -/
def ownerBlocks (user : String) (owner : Option String) : Bool :=
  match owner with
  | none => false
  | some o => !(o == "") && !(o == user)

/-- JS truthiness of an optional string field (`if (input.templateId)`). -/
def strTruthy (o : Option String) : Bool :=
  match o with
  | none => false
  | some t => !(t == "")

/-- Lookup of a template by id followed by the ownership guard: `true` when
the guarded branch throws NOT_FOUND (template absent, or owner truthy and
different from the caller). -/
def templateLookupBlocked (user : String) (s : Store) (tid : String) : Bool :=
  match s.templates.find? (fun t => t.id == tid) with
  | none => true
  | some t => ownerBlocks user t.userId

/-- createTemplate handler. -/
def createTemplate (ctx : Option String) (inp : CreateTemplateInput) (s : Store) (now : Nat)
    (genId : String) : Except ActionError Template × Store :=
  match ctx with
  | none => (Except.error ActionError.unauthorized, s)
  | some user =>
    let t : Template :=
      { id := inp.id.getD genId
        userId := if inp.isSystem.getD false then none else some user
        name := inp.name
        description := inp.description
        category := inp.category
        baseLanguage := inp.baseLanguage
        body := inp.body
        isSystem := inp.isSystem.getD false
        createdAt := now
        updatedAt := now }
    (Except.ok t, { s with templates := s.templates ++ [t] })

/-- Sparse merge of the present fields of an updateTemplate input into an
existing row (the `Object.entries` / skip-undefined loop), with the refreshed
update timestamp. -/
def mergeTemplate (t : Template) (inp : UpdateTemplateInput) (now : Nat) : Template :=
  { t with
    name := inp.name.getD t.name
    description := match inp.description with | some v => some v | none => t.description
    category := match inp.category with | some v => some v | none => t.category
    baseLanguage := match inp.baseLanguage with | some v => some v | none => t.baseLanguage
    body := inp.body.getD t.body
    isSystem := inp.isSystem.getD t.isSystem
    updatedAt := now }

/-- Emptiness test `Object.keys(updateData).length === 0` for updateTemplate. -/
def templateUpdateEmpty (inp : UpdateTemplateInput) : Bool :=
  inp.name.isNone && inp.description.isNone && inp.category.isNone &&
    inp.baseLanguage.isNone && inp.body.isNone && inp.isSystem.isNone

/-- updateTemplate handler. -/
def updateTemplate (ctx : Option String) (inp : UpdateTemplateInput) (s : Store) (now : Nat) :
    Except ActionError Template × Store :=
  match ctx with
  | none => (Except.error ActionError.unauthorized, s)
  | some user =>
    match s.templates.find? (fun t => t.id == inp.id) with
    | none => (Except.error ActionError.notFound, s)
    | some existing =>
      if ownerBlocks user existing.userId then
        (Except.error ActionError.notFound, s)
      else if templateUpdateEmpty inp then
        (Except.ok existing, s)
      else
        (Except.ok (mergeTemplate existing inp now),
         { s with templates :=
            s.templates.map (fun t => if t.id == inp.id then mergeTemplate t inp now else t) })

/-- listTemplates handler: full scan, then the visibility filter
`t.userId === null || t.userId === user.id`. -/
def listTemplates (ctx : Option String) (s : Store) : Except ActionError (List Template) :=
  match ctx with
  | none => Except.error ActionError.unauthorized
  | some user =>
    Except.ok (s.templates.filter (fun t => t.userId.isNone || t.userId == some user))

/-- createContract handler. -/
def createContract (ctx : Option String) (inp : CreateContractInput) (s : Store) (now : Nat)
    (genId : String) : Except ActionError Contract × Store :=
  match ctx with
  | none => (Except.error ActionError.unauthorized, s)
  | some user =>
    if strTruthy inp.templateId && templateLookupBlocked user s (inp.templateId.getD "") then
      (Except.error ActionError.notFound, s)
    else
      let c : Contract :=
        { id := inp.id.getD genId
          userId := user
          templateId := inp.templateId
          title := inp.title
          partyAName := inp.partyAName
          partyBName := inp.partyBName
          effectiveDate := inp.effectiveDate
          endDate := inp.endDate
          governingLaw := inp.governingLaw
          status := inp.status
          finalText := inp.finalText
          notes := inp.notes
          createdAt := now
          updatedAt := now }
      (Except.ok c, { s with contracts := s.contracts ++ [c] })

/-- Sparse merge for updateContract; a present `templateId` is written even
when it is the empty string. -/
def mergeContract (c : Contract) (inp : UpdateContractInput) (now : Nat) : Contract :=
  { c with
    templateId := match inp.templateId with | some v => some v | none => c.templateId
    title := inp.title.getD c.title
    partyAName := match inp.partyAName with | some v => some v | none => c.partyAName
    partyBName := match inp.partyBName with | some v => some v | none => c.partyBName
    effectiveDate := match inp.effectiveDate with | some v => some v | none => c.effectiveDate
    endDate := match inp.endDate with | some v => some v | none => c.endDate
    governingLaw := match inp.governingLaw with | some v => some v | none => c.governingLaw
    status := match inp.status with | some v => some v | none => c.status
    finalText := inp.finalText.getD c.finalText
    notes := match inp.notes with | some v => some v | none => c.notes
    updatedAt := now }

/-- Emptiness test `Object.keys(updateData).length === 0` for updateContract: all sparse
fields absent and templateId absent. -/
def contractUpdateEmpty (inp : UpdateContractInput) : Bool :=
  inp.templateId.isNone && inp.title.isNone && inp.partyAName.isNone &&
    inp.partyBName.isNone && inp.effectiveDate.isNone && inp.endDate.isNone &&
    inp.governingLaw.isNone && inp.status.isNone && inp.finalText.isNone && inp.notes.isNone

/-- updateContract handler. -/
def updateContract (ctx : Option String) (inp : UpdateContractInput) (s : Store) (now : Nat) :
    Except ActionError Contract × Store :=
  match ctx with
  | none => (Except.error ActionError.unauthorized, s)
  | some user =>
    match s.contracts.find? (fun c => c.id == inp.id && c.userId == user) with
    | none => (Except.error ActionError.notFound, s)
    | some existing =>
      if strTruthy inp.templateId && templateLookupBlocked user s (inp.templateId.getD "") then
        (Except.error ActionError.notFound, s)
      else if contractUpdateEmpty inp then
        (Except.ok existing, s)
      else
        (Except.ok (mergeContract existing inp now),
         { s with contracts :=
            s.contracts.map (fun c =>
              if c.id == inp.id && c.userId == user then mergeContract c inp now else c) })

/-- listContracts handler. -/
def listContracts (ctx : Option String) (s : Store) : Except ActionError (List Contract) :=
  match ctx with
  | none => Except.error ActionError.unauthorized
  | some user => Except.ok (s.contracts.filter (fun c => c.userId == user))

/-- deleteContract handler: delete scoped by id AND owner, NOT_FOUND when
nothing matched. -/
def deleteContract (ctx : Option String) (cid : String) (s : Store) :
    Except ActionError Contract × Store :=
  match ctx with
  | none => (Except.error ActionError.unauthorized, s)
  | some user =>
    match s.contracts.find? (fun c => c.id == cid && c.userId == user) with
    | none => (Except.error ActionError.notFound, s)
    | some deleted =>
      (Except.ok deleted,
       { s with contracts := s.contracts.filter (fun c => !(c.id == cid && c.userId == user)) })

/-- Effect of `db.update(ContractClauses).set(baseValues)` on one stored row:
the drizzle update builder drops undefined entries from the SET clause, so
the always-defined columns (contractId, orderIndex, body, createdAt) are
overwritten, while heading and clauseKey — undefined when the zod-optional
input fields are absent — are overwritten only when present, and otherwise
keep their stored values. The primary key id is not in baseValues. -/
def setClauseValues (cl : Clause) (inp : SaveClauseInput) (now : Nat) : Clause :=
  { id := cl.id
    contractId := inp.contractId
    orderIndex := inp.orderIndex
    heading := match inp.heading with | some v => some v | none => cl.heading
    body := inp.body
    clauseKey := match inp.clauseKey with | some v => some v | none => cl.clauseKey
    createdAt := now }

/-- saveClause handler: parent-contract guard, then upsert-by-id (truthy id:
update the row with baseValues — undefined entries dropped by the store
client, createdAt reset to now; otherwise insert with a store-generated
id). -/
def saveClause (ctx : Option String) (inp : SaveClauseInput) (s : Store) (now : Nat)
    (genId : String) : Except ActionError Clause × Store :=
  match ctx with
  | none => (Except.error ActionError.unauthorized, s)
  | some user =>
    match s.contracts.find? (fun c => c.id == inp.contractId && c.userId == user) with
    | none => (Except.error ActionError.notFound, s)
    | some _ =>
      if strTruthy inp.id then
        match s.clauses.find? (fun cl => cl.id == inp.id.getD "") with
        | none => (Except.error ActionError.notFound, s)
        | some existing =>
          if existing.contractId == inp.contractId then
            (Except.ok (setClauseValues existing inp now),
             { s with clauses :=
                s.clauses.map (fun cl =>
                  if cl.id == inp.id.getD "" then setClauseValues cl inp now else cl) })
          else (Except.error ActionError.notFound, s)
      else
        let cl : Clause :=
          { id := genId
            contractId := inp.contractId
            orderIndex := inp.orderIndex
            heading := inp.heading
            body := inp.body
            clauseKey := inp.clauseKey
            createdAt := now }
        (Except.ok cl, { s with clauses := s.clauses ++ [cl] })

/-- deleteClause handler. -/
def deleteClause (ctx : Option String) (clid contractId : String) (s : Store) :
    Except ActionError Clause × Store :=
  match ctx with
  | none => (Except.error ActionError.unauthorized, s)
  | some user =>
    match s.contracts.find? (fun c => c.id == contractId && c.userId == user) with
    | none => (Except.error ActionError.notFound, s)
    | some _ =>
      match s.clauses.find? (fun cl => cl.id == clid && cl.contractId == contractId) with
      | none => (Except.error ActionError.notFound, s)
      | some deleted =>
        (Except.ok deleted,
         { s with clauses :=
            s.clauses.filter (fun cl => !(cl.id == clid && cl.contractId == contractId)) })

/-- getContractWithClauses handler. -/
def getContractWithClauses (ctx : Option String) (cid : String) (s : Store) :
    Except ActionError (Contract × List Clause) :=
  match ctx with
  | none => Except.error ActionError.unauthorized
  | some user =>
    match s.contracts.find? (fun c => c.id == cid && c.userId == user) with
    | none => Except.error ActionError.notFound
    | some contract =>
      Except.ok (contract, s.clauses.filter (fun cl => cl.contractId == cid))

/-!
Input-schema layer. A raw input has every field optional (a JSON object may
omit any key); the parse functions implement the zod object schemas of the
source, and the `call…` wrappers reproduce the action pipeline: the framework
validates the input against the schema before the handler runs, rejecting
invalid input with a bad-request error.
-/

/-- Raw (unvalidated) input of createTemplate. -/
structure RawCreateTemplateInput where
  id : Option String
  name : Option String
  description : Option String
  category : Option String
  baseLanguage : Option String
  body : Option String
  isSystem : Option Bool
deriving DecidableEq, Repr

/-- Raw (unvalidated) input of updateTemplate. -/
structure RawUpdateTemplateInput where
  id : Option String
  name : Option String
  description : Option String
  category : Option String
  baseLanguage : Option String
  body : Option String
  isSystem : Option Bool
deriving DecidableEq, Repr

/-- Raw (unvalidated) input of createContract. -/
structure RawCreateContractInput where
  id : Option String
  templateId : Option String
  title : Option String
  partyAName : Option String
  partyBName : Option String
  effectiveDate : Option Nat
  endDate : Option Nat
  governingLaw : Option String
  status : Option String
  finalText : Option String
  notes : Option String
deriving DecidableEq, Repr

/-- Raw (unvalidated) input of updateContract. -/
structure RawUpdateContractInput where
  id : Option String
  templateId : Option String
  title : Option String
  partyAName : Option String
  partyBName : Option String
  effectiveDate : Option Nat
  endDate : Option Nat
  governingLaw : Option String
  status : Option String
  finalText : Option String
  notes : Option String
deriving DecidableEq, Repr

/-- zod schema of createTemplate: name and body required with min(1), the
rest optional. -/
def parseCreateTemplate (r : RawCreateTemplateInput) : Option CreateTemplateInput :=
  match r.name, r.body with
  | some n, some b =>
    if n.length ≥ 1 && b.length ≥ 1 then
      some { id := r.id, name := n, description := r.description, category := r.category
             baseLanguage := r.baseLanguage, body := b, isSystem := r.isSystem }
    else none
  | _, _ => none

/-- zod schema of updateTemplate: id required; name optional but min(1) when
present; every other field optional with no length constraint. -/
def parseUpdateTemplate (r : RawUpdateTemplateInput) : Option UpdateTemplateInput :=
  match r.id with
  | none => none
  | some i =>
    match r.name with
    | some n =>
      if n.length ≥ 1 then
        some { id := i, name := some n, description := r.description, category := r.category
               baseLanguage := r.baseLanguage, body := r.body, isSystem := r.isSystem }
      else none
    | none =>
      some { id := i, name := none, description := r.description, category := r.category
             baseLanguage := r.baseLanguage, body := r.body, isSystem := r.isSystem }

/-- zod schema of createContract: title and finalText required with min(1),
the rest optional. -/
def parseCreateContract (r : RawCreateContractInput) : Option CreateContractInput :=
  match r.title, r.finalText with
  | some t, some f =>
    if t.length ≥ 1 && f.length ≥ 1 then
      some { id := r.id, templateId := r.templateId, title := t, partyAName := r.partyAName
             partyBName := r.partyBName, effectiveDate := r.effectiveDate, endDate := r.endDate
             governingLaw := r.governingLaw, status := r.status, finalText := f
             notes := r.notes }
    else none
  | _, _ => none

/-- zod schema of updateContract: id required; every other field optional
with no length constraint. -/
def parseUpdateContract (r : RawUpdateContractInput) : Option UpdateContractInput :=
  match r.id with
  | none => none
  | some i =>
    some { id := i, templateId := r.templateId, title := r.title, partyAName := r.partyAName
           partyBName := r.partyBName, effectiveDate := r.effectiveDate, endDate := r.endDate
           governingLaw := r.governingLaw, status := r.status, finalText := r.finalText
           notes := r.notes }

/-- Action pipeline for createTemplate: schema validation, then the handler. -/
def callCreateTemplate (ctx : Option String) (r : RawCreateTemplateInput) (s : Store)
    (now : Nat) (genId : String) : Except ActionError Template × Store :=
  match parseCreateTemplate r with
  | none => (Except.error ActionError.badRequest, s)
  | some inp => createTemplate ctx inp s now genId

/-- Action pipeline for updateTemplate: schema validation, then the handler. -/
def callUpdateTemplate (ctx : Option String) (r : RawUpdateTemplateInput) (s : Store)
    (now : Nat) : Except ActionError Template × Store :=
  match parseUpdateTemplate r with
  | none => (Except.error ActionError.badRequest, s)
  | some inp => updateTemplate ctx inp s now

/-- Action pipeline for createContract: schema validation, then the handler. -/
def callCreateContract (ctx : Option String) (r : RawCreateContractInput) (s : Store)
    (now : Nat) (genId : String) : Except ActionError Contract × Store :=
  match parseCreateContract r with
  | none => (Except.error ActionError.badRequest, s)
  | some inp => createContract ctx inp s now genId

/-- Action pipeline for updateContract: schema validation, then the handler. -/
def callUpdateContract (ctx : Option String) (r : RawUpdateContractInput) (s : Store)
    (now : Nat) : Except ActionError Contract × Store :=
  match parseUpdateContract r with
  | none => (Except.error ActionError.badRequest, s)
  | some inp => updateContract ctx inp s now

/-! Helper lemmas. -/

deriving instance DecidableEq for Except

theorem ownerBlocks_iff (u : String) (w : Option String) :
    ownerBlocks u w = true ↔ ∃ o, w = some o ∧ o ≠ "" ∧ o ≠ u := by
  cases w <;> simp [ownerBlocks]

theorem ownerBlocks_owner_self (u : String) : ownerBlocks u (some u) = false := by
  simp [ownerBlocks]

theorem find?_append_none {α : Type} (p : α → Bool) (l1 l2 : List α)
    (h : l1.find? p = none) : (l1 ++ l2).find? p = l2.find? p := by
  induction l1 with
  | nil => rfl
  | cons a t ih =>
    cases hpa : p a with
    | true =>
      rw [List.find?_cons_of_pos _ hpa] at h
      cases h
    | false =>
      rw [List.find?_cons_of_neg _ (by simp [hpa])] at h
      rw [List.cons_append, List.find?_cons_of_neg _ (by simp [hpa])]
      exact ih h

/-- The sparse merge of updateTemplate never touches the owner column. -/
theorem mergeTemplate_userId (t : Template) (inp : UpdateTemplateInput) (now : Nat) :
    (mergeTemplate t inp now).userId = t.userId := rfl

/-- Concrete rows and stores used by witnesses and counterexamples. -/
def tmplBlankOwner : Template :=
  { id := "t1", userId := some "", name := "n", description := none, category := none,
    baseLanguage := none, body := "b", isSystem := false, createdAt := 0, updatedAt := 0 }

def storeBlankOwner : Store :=
  { templates := [tmplBlankOwner], contracts := [], clauses := [] }

def updNameOnly : UpdateTemplateInput :=
  { id := "t1", name := some "n2", description := none, category := none,
    baseLanguage := none, body := none, isSystem := none }

/-- C1: listTemplates returns exactly the templates whose owner is null or
equals the caller: for every authenticated caller u and store s, the result
is ok, a template is in it iff it is stored and its userId is none or
some u; hence ownerless templates appear for every caller, a template owned
by u appears only in the result of u, and no template owned by a different
non-null user appears. -/
theorem listTemplates_visibility (u : String) (s : Store) (t : Template) :
    ∃ ts, listTemplates (some u) s = Except.ok ts ∧
      (t ∈ ts ↔ t ∈ s.templates ∧ (t.userId = none ∨ t.userId = some u)) := by
  refine ⟨_, rfl, ?_⟩
  simp [List.mem_filter, Option.isNone_iff_eq_none]

/-- C2 counterexample: a template whose owner is the empty string has a
non-null owner different from caller "alice", yet updateTemplate succeeds
(the truthiness guard `existing.userId && ...` of the source treats "" like
null), where the claim requires NotFound. -/
theorem updateTemplate_emptyOwner_counterexample :
    tmplBlankOwner.userId ≠ none ∧ tmplBlankOwner.userId ≠ some "alice" ∧
    (updateTemplate (some "alice") updNameOnly storeBlankOwner 5).fst ≠
      Except.error ActionError.notFound := by
  refine ⟨by decide, by decide, by decide⟩

/-- C2 amended: updateTemplate fails NotFound exactly when no template with
the given id exists, or the first stored template with that id has a truthy
(non-null, non-empty) owner different from the caller; on failure the store
is returned unmodified; and whenever the owner guard does not block (in
particular for a null owner) the call returns ok. -/
theorem updateTemplate_notFound_iff (u : String) (inp : UpdateTemplateInput) (s : Store)
    (now : Nat) :
    ((updateTemplate (some u) inp s now).fst = Except.error ActionError.notFound ↔
      (∀ t ∈ s.templates, t.id ≠ inp.id) ∨
      ∃ t, s.templates.find? (fun x => x.id == inp.id) = some t ∧
        ∃ o, t.userId = some o ∧ o ≠ "" ∧ o ≠ u) ∧
    ((updateTemplate (some u) inp s now).fst = Except.error ActionError.notFound →
      (updateTemplate (some u) inp s now).snd = s) ∧
    (∀ t, s.templates.find? (fun x => x.id == inp.id) = some t →
      ownerBlocks u t.userId = false →
      ∃ r, (updateTemplate (some u) inp s now).fst = Except.ok r) := by
  cases hf : s.templates.find? (fun x => x.id == inp.id) with
  | none =>
    refine ⟨?_, ?_, ?_⟩
    · simp only [updateTemplate, hf]
      simp only [true_iff]
      left
      intro t ht
      have := List.find?_eq_none.mp hf t ht
      simpa using this
    · intro _; simp [updateTemplate, hf]
    · intro t ht; simp at ht
  | some existing =>
    have hmem : existing ∈ s.templates := List.mem_of_find?_eq_some hf
    have hpid : existing.id = inp.id := by simpa using List.find?_some hf
    cases hb : ownerBlocks u existing.userId with
    | true =>
      refine ⟨?_, ?_, ?_⟩
      · simp only [updateTemplate, hf, hb, if_true]
        simp only [true_iff]
        right
        exact ⟨existing, rfl, (ownerBlocks_iff u existing.userId).mp hb⟩
      · intro _; simp [updateTemplate, hf, hb]
      · intro t ht hblk
        injection ht with hh
        rw [hh] at hb
        simp [hblk] at hb
    | false =>
      have hok : ∃ r, (updateTemplate (some u) inp s now).fst = Except.ok r := by
        by_cases he : templateUpdateEmpty inp = true
        · exact ⟨existing, by simp [updateTemplate, hf, hb, he]⟩
        · exact ⟨mergeTemplate existing inp now,
            by simp [updateTemplate, hf, hb, he]⟩
      refine ⟨?_, ?_, fun t ht hblk => hok⟩
      · obtain ⟨r, hr⟩ := hok
        rw [hr]
        constructor
        · intro hcon; simp at hcon
        · intro hcon
          exfalso
          rcases hcon with hleft | ⟨t, htf, o, ho, hone, hou⟩
          · exact hleft existing hmem hpid
          · injection htf with hh
            rw [hh] at hb
            rw [(ownerBlocks_iff u t.userId).mpr ⟨o, ho, hone, hou⟩] at hb
            cases hb
      · intro hcon
        obtain ⟨r, hr⟩ := hok
        rw [hr] at hcon
        simp at hcon

def ccRefBlank : CreateContractInput :=
  { id := some "c9", templateId := some "t1", title := "T", partyAName := none,
    partyBName := none, effectiveDate := none, endDate := none, governingLaw := none,
    status := none, finalText := "F", notes := none }

/-- C3 counterexample: the referenced template "t1" exists with the non-null
owner "" different from caller "alice", yet createContract succeeds and
appends a contract row (the truthiness guard `template.userId && ...` treats
"" like null), where the claim requires NotFound and an unchanged table. -/
theorem createContract_emptyOwner_counterexample :
    storeBlankOwner.templates.find? (fun x => x.id == "t1") = some tmplBlankOwner ∧
    tmplBlankOwner.userId ≠ none ∧ tmplBlankOwner.userId ≠ some "alice" ∧
    (createContract (some "alice") ccRefBlank storeBlankOwner 3 "g").fst ≠
      Except.error ActionError.notFound ∧
    (createContract (some "alice") ccRefBlank storeBlankOwner 3 "g").snd.contracts ≠
      storeBlankOwner.contracts := by
  refine ⟨by decide, by decide, by decide, by decide, by decide⟩

/-- C3 amended: for a present templateId that is non-empty, createContract
fails NotFound and leaves the store unchanged exactly when the template
lookup-and-ownership guard blocks (template absent, or owner truthy —
non-null and non-empty — and different from the caller); when the guard does
not block (ownerless, caller-owned, or empty-string-owned template) the
contract is created with owner equal to the caller and appended to the
Contracts table. -/
theorem createContract_templateGuard (u : String) (inp : CreateContractInput) (s : Store)
    (now : Nat) (gid : String) (tid : String) (hid : inp.templateId = some tid)
    (hne : tid ≠ "") :
    (templateLookupBlocked u s tid = true →
      createContract (some u) inp s now gid = (Except.error ActionError.notFound, s)) ∧
    (templateLookupBlocked u s tid = false →
      ∃ c, createContract (some u) inp s now gid =
          (Except.ok c, { s with contracts := s.contracts ++ [c] }) ∧
        c.userId = u ∧ c.templateId = some tid) := by
  constructor
  · intro hb
    simp [createContract, hid, strTruthy, hne, hb]
  · intro hb
    refine
      ⟨{ id := inp.id.getD gid, userId := u, templateId := inp.templateId,
         title := inp.title, partyAName := inp.partyAName, partyBName := inp.partyBName,
         effectiveDate := inp.effectiveDate, endDate := inp.endDate,
         governingLaw := inp.governingLaw, status := inp.status,
         finalText := inp.finalText, notes := inp.notes, createdAt := now,
         updatedAt := now }, ?_, rfl, hid⟩
    simp [createContract, hid, strTruthy, hne, hb]

/-- C4 counterexample: calling createTemplate with no authenticated user and
an input missing the required name field fails with the bad-request error of the schema
error, not Unauthorized — the framework validates the input schema before
the handler (and its auth check) runs, contradicting the claim that the
Unauthorized failure precedes input-field validation. -/
theorem schemaValidation_precedes_auth_counterexample :
    callCreateTemplate none
        { id := none, name := none, description := none, category := none,
          baseLanguage := none, body := some "b", isSystem := none }
        { templates := [], contracts := [], clauses := [] } 0 "g" =
      (Except.error ActionError.badRequest,
        { templates := [], contracts := [], clauses := [] }) ∧
    ActionError.badRequest ≠ ActionError.unauthorized := by
  refine ⟨by decide, by decide⟩

/-- C4 amended: every handler, run on schema-valid input with no
authenticated user, fails Unauthorized and returns the store unchanged, for
every input and every store — the Unauthorized check is first within the
handler, before any store access or handler-level validation; input-schema
validation, however, runs before the handler. -/
theorem unauthorized_first_in_handlers :
    (∀ inp s now gid, createTemplate none inp s now gid =
      (Except.error ActionError.unauthorized, s)) ∧
    (∀ inp s now, updateTemplate none inp s now =
      (Except.error ActionError.unauthorized, s)) ∧
    (∀ s, listTemplates none s = Except.error ActionError.unauthorized) ∧
    (∀ inp s now gid, createContract none inp s now gid =
      (Except.error ActionError.unauthorized, s)) ∧
    (∀ inp s now, updateContract none inp s now =
      (Except.error ActionError.unauthorized, s)) ∧
    (∀ s, listContracts none s = Except.error ActionError.unauthorized) ∧
    (∀ cid s, deleteContract none cid s = (Except.error ActionError.unauthorized, s)) ∧
    (∀ inp s now gid, saveClause none inp s now gid =
      (Except.error ActionError.unauthorized, s)) ∧
    (∀ clid coid s, deleteClause none clid coid s =
      (Except.error ActionError.unauthorized, s)) ∧
    (∀ cid s, getContractWithClauses none cid s = Except.error ActionError.unauthorized) :=
  ⟨fun _ _ _ _ => rfl, fun _ _ _ => rfl, fun _ => rfl, fun _ _ _ _ => rfl,
   fun _ _ _ => rfl, fun _ => rfl, fun _ _ => rfl, fun _ _ _ _ => rfl,
   fun _ _ _ => rfl, fun _ _ => rfl⟩

/-- C5: an update input containing no present updatable field beyond id
performs no write: for every caller and accessible row, updateTemplate and
updateContract short-circuit, returning the pre-existing row (with its
original updatedAt) and the store completely unchanged. -/
theorem update_noFields_noWrite (u : String) (it : UpdateTemplateInput)
    (ic : UpdateContractInput) (s : Store) (now : Nat)
    (hte : templateUpdateEmpty it = true) (hce : contractUpdateEmpty ic = true) :
    (∀ t, s.templates.find? (fun x => x.id == it.id) = some t →
      ownerBlocks u t.userId = false →
      updateTemplate (some u) it s now = (Except.ok t, s)) ∧
    (∀ c, s.contracts.find? (fun x => x.id == ic.id && x.userId == u) = some c →
      updateContract (some u) ic s now = (Except.ok c, s)) := by
  constructor
  · intro t hf hb
    simp [updateTemplate, hf, hb, hte]
  · intro c hf
    have htid : ic.templateId = none := by
      have h1 := hce
      simp only [contractUpdateEmpty, Bool.and_eq_true, Option.isNone_iff_eq_none] at h1
      exact h1.1.1.1.1.1.1.1.1.1
    simp [updateContract, hf, htid, strTruthy, hce]

/-- C6 amended: for a caller owning the parent contract, saveClause with a
supplied (truthy) id fails NotFound exactly when no stored clause with that
id has a contractId equal to the supplied contractId (so it fails even when
the clause id exists under a different contract); on success the row at
that id gets the supplied contractId, orderIndex and body with createdAt
reset to now rather than preserved, while heading and clauseKey are
overwritten only when present in the input and keep their stored values
when absent (setClauseValues: the store client drops undefined entries from
the update SET clause, so this is not a full replace of the value set). -/
theorem saveClause_upsert_byId (u : String) (inp : SaveClauseInput) (s : Store) (now : Nat)
    (gid : String) (i : String) (hid : inp.id = some i) (hne : i ≠ "")
    (hc : ∃ c0, s.contracts.find? (fun x => x.id == inp.contractId && x.userId == u) = some c0) :
    ((saveClause (some u) inp s now gid).fst = Except.error ActionError.notFound ↔
      ∀ cl, s.clauses.find? (fun x => x.id == i) = some cl →
        cl.contractId ≠ inp.contractId) ∧
    (∀ cl, s.clauses.find? (fun x => x.id == i) = some cl →
      cl.contractId = inp.contractId →
      saveClause (some u) inp s now gid =
        (Except.ok (setClauseValues cl inp now),
         { s with clauses := s.clauses.map (fun x =>
             if x.id == i then setClauseValues x inp now else x) })) := by
  obtain ⟨c0, hc0⟩ := hc
  have hst : strTruthy inp.id = true := by rw [hid]; simp [strTruthy, hne]
  have hidg : inp.id.getD "" = i := by rw [hid]; rfl
  constructor
  · cases hcl : s.clauses.find? (fun x => x.id == i) with
    | none =>
      simp [saveClause, hc0, hst, hidg, hcl]
    | some cl0 =>
      cases hmatch : cl0.contractId == inp.contractId with
      | true =>
        simp only [saveClause, hc0, hst, hidg, hcl, hmatch]
        simp only [beq_iff_eq] at hmatch
        simp [hmatch]
      | false =>
        simp only [saveClause, hc0, hst, hidg, hcl, hmatch]
        simp only [beq_eq_false_iff_ne] at hmatch
        simp [hmatch]
  · intro cl hclf hceq
    have hm : cl.contractId == inp.contractId := by simp [hceq]
    simp [saveClause, hc0, hst, hidg, hclf, hm]

def contractAlice : Contract :=
  { id := "c1", userId := "alice", templateId := none, title := "T", partyAName := none,
    partyBName := none, effectiveDate := none, endDate := none, governingLaw := none,
    status := none, finalText := "F", notes := none, createdAt := 0, updatedAt := 0 }

def storeBlankOwnerContract : Store :=
  { templates := [tmplBlankOwner], contracts := [contractAlice], clauses := [] }

def updLinkT1 : UpdateContractInput :=
  { id := "c1", templateId := some "t1", title := none, partyAName := none,
    partyBName := none, effectiveDate := none, endDate := none, governingLaw := none,
    status := none, finalText := none, notes := none }

/-- C7 counterexample: caller "alice" owns contract "c1"; the referenced
template "t1" exists but is neither ownerless nor owned by "alice" (its
owner is the empty string), so the claim requires NotFound; the truthiness
guard of the source lets it through and updateContract succeeds. -/
theorem updateContract_emptyOwner_counterexample :
    tmplBlankOwner.userId ≠ none ∧ tmplBlankOwner.userId ≠ some "alice" ∧
    storeBlankOwnerContract.templates.find? (fun x => x.id == "t1") = some tmplBlankOwner ∧
    (updateContract (some "alice") updLinkT1 storeBlankOwnerContract 5).fst ≠
      Except.error ActionError.notFound := by
  refine ⟨by decide, by decide, by decide, by decide⟩

/-- C7 amended: for a caller owning contract id, updateContract with a
present non-empty templateId fails NotFound exactly when the template
lookup-and-ownership guard blocks (template absent, or owner truthy —
non-null and non-empty — and different from the caller); with templateId
present but empty, no template validation happens and the call succeeds,
writing the empty string into the template link of the contract. -/
theorem updateContract_templateIdGuard (u : String) (inp : UpdateContractInput) (s : Store)
    (now : Nat) (c : Contract)
    (hc : s.contracts.find? (fun x => x.id == inp.id && x.userId == u) = some c) :
    (∀ tid, inp.templateId = some tid → tid ≠ "" →
      ((updateContract (some u) inp s now).fst = Except.error ActionError.notFound ↔
        templateLookupBlocked u s tid = true)) ∧
    (inp.templateId = some "" →
      ∃ r, (updateContract (some u) inp s now).fst = Except.ok r ∧
        r.templateId = some "") := by
  constructor
  · intro tid htid hne
    have hst : strTruthy inp.templateId = true := by rw [htid]; simp [strTruthy, hne]
    have hg : inp.templateId.getD "" = tid := by rw [htid]; rfl
    cases hb : templateLookupBlocked u s tid with
    | true =>
      simp [updateContract, hc, hst, hg, hb]
    | false =>
      have hnotempty : contractUpdateEmpty inp = false := by
        simp [contractUpdateEmpty, htid]
      simp [updateContract, hc, hst, hg, hb, hnotempty]
  · intro htid
    have hst : strTruthy inp.templateId = false := by rw [htid]; simp [strTruthy]
    have hnotempty : contractUpdateEmpty inp = false := by
      simp [contractUpdateEmpty, htid]
    refine ⟨mergeContract c inp now, ?_, ?_⟩
    · simp [updateContract, hc, hst, hnotempty]
    · simp [mergeContract, htid]

/-- C8: round-trip — after a successful createContract whose returned id is
fresh and has no pre-existing clauses, getContractWithClauses on the
returned id succeeds with the created contract (hence its title and
finalText are the ones supplied) and an empty clause list. -/
theorem create_get_roundTrip (u : String) (inp : CreateContractInput) (s : Store) (now : Nat)
    (gid : String) (c : Contract) (s2 : Store)
    (h : createContract (some u) inp s now gid = (Except.ok c, s2))
    (hfresh : ∀ c0 ∈ s.contracts, c0.id ≠ c.id)
    (hnocl : ∀ cl ∈ s.clauses, cl.contractId ≠ c.id) :
    getContractWithClauses (some u) c.id s2 = Except.ok (c, []) ∧
    c.title = inp.title ∧ c.finalText = inp.finalText := by
  simp only [createContract] at h
  by_cases hcond :
      (strTruthy inp.templateId && templateLookupBlocked u s (inp.templateId.getD "")) = true
  · rw [if_pos hcond] at h
    simp at h
  · rw [if_neg hcond] at h
    rw [Prod.mk.injEq] at h
    obtain ⟨h1, h2⟩ := h
    rw [Except.ok.injEq] at h1
    rw [h1] at h2
    have huser : c.userId = u := by rw [← h1]
    have htitle : c.title = inp.title := by rw [← h1]
    have hfinal : c.finalText = inp.finalText := by rw [← h1]
    subst h2
    refine ⟨?_, htitle, hfinal⟩
    have hpre : s.contracts.find? (fun x => x.id == c.id && x.userId == u) = none := by
      apply List.find?_eq_none.mpr
      intro x hx
      simp [hfresh x hx]
    have hone : List.find? (fun x => x.id == c.id && x.userId == u) [c] = some c := by
      apply List.find?_cons_of_pos
      simp [huser]
    have hfil : s.clauses.filter (fun cl => cl.contractId == c.id) = [] := by
      apply List.filter_eq_nil_iff.mpr
      intro cl hcl
      simp [hnocl cl hcl]
    simp only [getContractWithClauses]
    rw [find?_append_none _ _ _ hpre, hone]
    simp [hfil]

/-- C9: updateTemplate never writes the owner (userId) column — the owner
list of the templates table is unchanged by every updateTemplate call — so
the creation-time correspondence "isSystem iff ownerless" is not an
invariant: creating a template without isSystem and then updating it with
isSystem set to true leaves a stored template with isSystem true and a
non-null owner. -/
theorem updateTemplate_isSystem_owner_drift :
    (∀ u inp s now,
      ((updateTemplate (some u) inp s now).snd).templates.map (fun t => t.userId) =
        s.templates.map (fun t => t.userId)) ∧
    (∃ t,
      ((updateTemplate (some "u9")
          { id := "t9", name := none, description := none, category := none,
            baseLanguage := none, body := none, isSystem := some true }
          (createTemplate (some "u9")
            { id := some "t9", name := "n", description := none, category := none,
              baseLanguage := none, body := "b", isSystem := none }
            { templates := [], contracts := [], clauses := [] } 0 "g").snd 1).snd).templates =
        [t] ∧ t.isSystem = true ∧ t.userId = some "u9") := by
  constructor
  · intro u inp s now
    cases hf : s.templates.find? (fun x => x.id == inp.id) with
    | none => simp [updateTemplate, hf]
    | some ex =>
      cases hb : ownerBlocks u ex.userId with
      | true => simp [updateTemplate, hf, hb]
      | false =>
        cases he : templateUpdateEmpty inp with
        | true => simp [updateTemplate, hf, hb, he]
        | false =>
          simp only [updateTemplate, hf, hb, he, Bool.false_eq_true, if_false, if_true]
          rw [List.map_map]
          apply List.map_congr_left
          intro a _
          by_cases hcase : (a.id == inp.id) = true
          · simp [hcase, Function.comp, mergeTemplate_userId]
          · simp [hcase, Function.comp]
  · exact ⟨{ id := "t9", userId := some "u9", name := "n", description := none,
             category := none, baseLanguage := none, body := "b", isSystem := true,
             createdAt := 0, updatedAt := 1 }, by decide, rfl, rfl⟩

def rawUpdTemplateEmptyBody (i : String) : RawUpdateTemplateInput :=
  { id := some i, name := none, description := none, category := none,
    baseLanguage := none, body := some "", isSystem := none }

def rawUpdContractEmptyText (i : String) : RawUpdateContractInput :=
  { id := some i, templateId := none, title := some "", partyAName := none,
    partyBName := none, effectiveDate := none, endDate := none, governingLaw := none,
    status := none, finalText := some "", notes := none }

/-- C10: the update schemas do not require non-empty text bodies — for an
owned template, the full updateTemplate pipeline accepts body equal to ""
and stores it, and for an owned contract the full updateContract pipeline
accepts title and finalText equal to "" and stores them — while the
creation schemas reject an empty body, title, or finalText. -/
theorem update_accepts_empty_strings (u : String) (s : Store) (now : Nat) (t : Template)
    (c : Contract)
    (ht : s.templates.find? (fun x => x.id == t.id) = some t) (hto : t.userId = some u)
    (hc : s.contracts.find? (fun x => x.id == c.id && x.userId == u) = some c) :
    (∃ r s2, callUpdateTemplate (some u) (rawUpdTemplateEmptyBody t.id) s now =
        (Except.ok r, s2) ∧ r.body = "" ∧ r ∈ s2.templates) ∧
    (∃ r s2, callUpdateContract (some u) (rawUpdContractEmptyText c.id) s now =
        (Except.ok r, s2) ∧ r.title = "" ∧ r.finalText = "" ∧ r ∈ s2.contracts) ∧
    (∀ r : RawCreateTemplateInput, r.body = some "" → parseCreateTemplate r = none) ∧
    (∀ r : RawCreateContractInput, r.title = some "" → parseCreateContract r = none) ∧
    (∀ r : RawCreateContractInput, r.finalText = some "" → parseCreateContract r = none) := by
  refine ⟨?_, ?_, ?_, ?_, ?_⟩
  · have htm : t ∈ s.templates := List.mem_of_find?_eq_some ht
    have hblock : ownerBlocks u t.userId = false := by
      rw [hto]; exact ownerBlocks_owner_self u
    refine ⟨mergeTemplate t
        { id := t.id, name := none, description := none, category := none,
          baseLanguage := none, body := some "", isSystem := none } now,
      { s with templates := s.templates.map (fun x =>
          if x.id == t.id then
            mergeTemplate x
              { id := t.id, name := none, description := none, category := none,
                baseLanguage := none, body := some "", isSystem := none } now
          else x) }, ?_, rfl, ?_⟩
    · simp [callUpdateTemplate, parseUpdateTemplate, rawUpdTemplateEmptyBody, updateTemplate,
        ht, hblock, templateUpdateEmpty]
    · exact List.mem_map.mpr ⟨t, htm, by simp⟩
  · have hcm : c ∈ s.contracts := List.mem_of_find?_eq_some hc
    refine ⟨mergeContract c
        { id := c.id, templateId := none, title := some "", partyAName := none,
          partyBName := none, effectiveDate := none, endDate := none, governingLaw := none,
          status := none, finalText := some "", notes := none } now,
      { s with contracts := s.contracts.map (fun x =>
          if x.id == c.id && x.userId == u then
            mergeContract x
              { id := c.id, templateId := none, title := some "", partyAName := none,
                partyBName := none, effectiveDate := none, endDate := none,
                governingLaw := none, status := none, finalText := some "", notes := none } now
          else x) }, ?_, rfl, rfl, ?_⟩
    · simp [callUpdateContract, parseUpdateContract, rawUpdContractEmptyText, updateContract,
        hc, strTruthy, contractUpdateEmpty]
    · refine List.mem_map.mpr ⟨c, hcm, ?_⟩
      have hcu : c.userId = u := by simpa using List.find?_some hc
      simp [hcu]
  · intro r hr
    cases hn : r.name with
    | none => simp [parseCreateTemplate, hr, hn]
    | some n => simp [parseCreateTemplate, hr, hn]
  · intro r hr
    cases hn : r.finalText with
    | none => simp [parseCreateContract, hr, hn]
    | some n => simp [parseCreateContract, hr, hn]
  · intro r hr
    cases hn : r.title with
    | none => simp [parseCreateContract, hr, hn]
    | some n => simp [parseCreateContract, hr, hn]

/-! Concrete fixtures for the witnesses. -/

def tmplU : Template :=
  { id := "tpl", userId := some "u", name := "nm", description := none, category := none,
    baseLanguage := none, body := "bd", isSystem := false, createdAt := 0, updatedAt := 0 }

def contrU : Contract :=
  { id := "con", userId := "u", templateId := none, title := "Ti", partyAName := none,
    partyBName := none, effectiveDate := none, endDate := none, governingLaw := none,
    status := none, finalText := "Fi", notes := none, createdAt := 0, updatedAt := 0 }

def clauseU : Clause :=
  { id := "cla", contractId := "con", orderIndex := 1, heading := none, body := "cb",
    clauseKey := none, createdAt := 0 }

def storeU : Store := { templates := [tmplU], contracts := [contrU], clauses := [clauseU] }

def updT : UpdateTemplateInput :=
  { id := "tpl", name := some "x", description := none, category := none,
    baseLanguage := none, body := none, isSystem := none }

/-- Witness for the amended C2 theorem: caller "w" does not own template
"tpl" (owned by "u"), and updateTemplate indeed fails NotFound. -/
theorem updateTemplate_notFound_iff_witness :
    (updateTemplate (some "w") updT storeU 5).fst = Except.error ActionError.notFound :=
  (updateTemplate_notFound_iff "w" updT storeU 5).1.mpr
    (Or.inr ⟨tmplU, by decide, "u", by decide, by decide, by decide⟩)

def ccRefTpl : CreateContractInput :=
  { id := some "c3", templateId := some "tpl", title := "T", partyAName := none,
    partyBName := none, effectiveDate := none, endDate := none, governingLaw := none,
    status := none, finalText := "F", notes := none }

/-- Witness for the amended C3 theorem: caller "w" references template "tpl"
owned by "u"; createContract fails NotFound with the store unchanged. -/
theorem createContract_templateGuard_witness :
    createContract (some "w") ccRefTpl storeU 3 "g" =
      (Except.error ActionError.notFound, storeU) :=
  (createContract_templateGuard "w" ccRefTpl storeU 3 "g" "tpl" rfl (by decide)).1 (by decide)

def updTEmpty : UpdateTemplateInput :=
  { id := "tpl", name := none, description := none, category := none, baseLanguage := none,
    body := none, isSystem := none }

def updCEmpty : UpdateContractInput :=
  { id := "con", templateId := none, title := none, partyAName := none, partyBName := none,
    effectiveDate := none, endDate := none, governingLaw := none, status := none,
    finalText := none, notes := none }

/-- Witness for C5: id-only updates of an owned template and an owned
contract return the stored rows and leave the store unchanged. -/
theorem update_noFields_noWrite_witness :
    updateTemplate (some "u") updTEmpty storeU 7 = (Except.ok tmplU, storeU) ∧
    updateContract (some "u") updCEmpty storeU 7 = (Except.ok contrU, storeU) :=
  ⟨(update_noFields_noWrite "u" updTEmpty updCEmpty storeU 7 (by decide) (by decide)).1
      tmplU (by decide) (by decide),
   (update_noFields_noWrite "u" updTEmpty updCEmpty storeU 7 (by decide) (by decide)).2
      contrU (by decide)⟩

def clauseHK : Clause :=
  { id := "clh", contractId := "con", orderIndex := 1, heading := some "H", body := "cb",
    clauseKey := some "K", createdAt := 0 }

def storeHK : Store := { templates := [], contracts := [contrU], clauses := [clauseHK] }

def saveNoHead : SaveClauseInput :=
  { id := some "clh", contractId := "con", orderIndex := 2, heading := none, body := "nb",
    clauseKey := none }

/-- C6 counterexample: clause "clh" of contract "con" (owned by the caller)
stores heading "H" and clauseKey "K"; the upsert input supplies the id but
omits heading and clauseKey, so a full replace of the value set would write
none into both columns — but the store client drops the undefined entries
from the update SET clause, and the returned row keeps "H" and "K". -/
theorem saveClause_fullReplace_counterexample :
    saveNoHead.heading = none ∧ saveNoHead.clauseKey = none ∧
    (saveClause (some "u") saveNoHead storeHK 9 "g").fst =
      Except.ok { id := "clh", contractId := "con", orderIndex := 2, heading := some "H",
                  body := "nb", clauseKey := some "K", createdAt := 9 } ∧
    some "H" ≠ (none : Option String) ∧ some "K" ≠ (none : Option String) := by
  refine ⟨by decide, by decide, by decide, by decide, by decide⟩

/-- Witness for the amended C6 theorem: upserting clause "clh" of contract
"con" overwrites contractId, orderIndex and body, resets createdAt to 9,
and preserves the stored heading and clauseKey absent from the input. -/
theorem saveClause_upsert_byId_witness :
    saveClause (some "u") saveNoHead storeHK 9 "g" =
      (Except.ok { id := "clh", contractId := "con", orderIndex := 2, heading := some "H",
                   body := "nb", clauseKey := some "K", createdAt := 9 },
       { templates := [], contracts := [contrU],
         clauses := [{ id := "clh", contractId := "con", orderIndex := 2, heading := some "H",
                       body := "nb", clauseKey := some "K", createdAt := 9 }] }) :=
  (saveClause_upsert_byId "u" saveNoHead storeHK 9 "g" "clh" rfl (by decide)
      ⟨contrU, by decide⟩).2 clauseHK (by decide) (by decide)

def updCLink : UpdateContractInput :=
  { id := "con", templateId := some "zzz", title := none, partyAName := none,
    partyBName := none, effectiveDate := none, endDate := none, governingLaw := none,
    status := none, finalText := none, notes := none }

/-- Witness for the amended C7 theorem: caller "u" owns contract "con"; a
non-empty templateId referencing no stored template makes updateContract
fail NotFound. -/
theorem updateContract_templateIdGuard_witness :
    (updateContract (some "u") updCLink storeU 5).fst = Except.error ActionError.notFound :=
  ((updateContract_templateIdGuard "u" updCLink storeU 5 contrU (by decide)).1 "zzz" rfl
      (by decide)).mpr (by decide)

def ccRound : CreateContractInput :=
  { id := some "c8", templateId := none, title := "T", partyAName := none, partyBName := none,
    effectiveDate := none, endDate := none, governingLaw := none, status := none,
    finalText := "F", notes := none }

def contrRound : Contract :=
  { id := "c8", userId := "u", templateId := none, title := "T", partyAName := none,
    partyBName := none, effectiveDate := none, endDate := none, governingLaw := none,
    status := none, finalText := "F", notes := none, createdAt := 4, updatedAt := 4 }

/-- Witness for C8: a concrete createContract followed by
getContractWithClauses returns the created contract and no clauses. -/
theorem create_get_roundTrip_witness :
    getContractWithClauses (some "u") contrRound.id
        { templates := [], contracts := [contrRound], clauses := [] } =
      Except.ok (contrRound, []) ∧
    contrRound.title = ccRound.title ∧ contrRound.finalText = ccRound.finalText :=
  create_get_roundTrip "u" ccRound { templates := [], contracts := [], clauses := [] } 4 "g"
    contrRound { templates := [], contracts := [contrRound], clauses := [] } (by decide)
    (by intro c0 h; simp at h) (by intro cl h; simp at h)

def rawCT0 : RawCreateTemplateInput :=
  { id := none, name := some "nm", description := none, category := none,
    baseLanguage := none, body := some "", isSystem := none }

/-- Witness for C10: on a concrete owned template the empty-body update is
accepted and stored, while createTemplate rejects an empty body. -/
theorem update_accepts_empty_strings_witness :
    (∃ r s2, callUpdateTemplate (some "u") (rawUpdTemplateEmptyBody "tpl") storeU 3 =
        (Except.ok r, s2) ∧ r.body = "" ∧ r ∈ s2.templates) ∧
    parseCreateTemplate rawCT0 = none :=
  ⟨(update_accepts_empty_strings "u" storeU 3 tmplU contrU (by decide) rfl (by decide)).1,
   (update_accepts_empty_strings "u" storeU 3 tmplU contrU (by decide) rfl
      (by decide)).2.2.1 rawCT0 rfl⟩

end ContractService
